import Mathlib

/-!
Verification of the statsify dashboard (src/main.py).

The development shallowly embeds the parts of the program the properties
talk about:
* the Streamlit session-state token cache (StreamlitCacheHandler,
  clear_session_token, the login/logout button handler) as pure functions
  over a SessionState record plus a small step relation for reachability;
* the pandas aggregations of the dashboard (resample-and-sum of listening
  minutes, value_counts of track names) as executable list functions;
* the top-to-bottom page render (lines 94-251) as a function in the
  Except monad, recording the API calls issued and the page sections
  emitted, and faulting exactly where the Python code would raise an
  IndexError.
-/

/-- A Token Record as issued by the OAuth provider: an opaque bundle of
access token, refresh token, expiry and granted scopes.  The program never
inspects its fields; it only stores and retrieves it wholesale. -/
structure TokenInfo where
  access_token : String
  refresh_token : String
  expires_at : Nat
  scope : List String
deriving DecidableEq, Repr

/-- The Streamlit per-session store, restricted to the two keys the program
uses.  A field value of none models the key being absent from
st.session_state.  The verified field is ghost state recording whether a
verifying profile fetch has succeeded since the stored token was saved; it
is updated alongside the events that save or clear tokens. -/
structure SessionState where
  spotify_token : Option TokenInfo
  authenticated : Option Bool
  verified : Bool
deriving DecidableEq, Repr

/-- StreamlitCacheHandler.get_cached_token (main.py lines 15-17):
returns st.session_state.get ("spotify_token"), i.e. the stored record or
none when absent.  It is a pure observer of the state. -/
def get_cached_token (s : SessionState) : Option TokenInfo :=
  s.spotify_token

/-- StreamlitCacheHandler.save_token_to_cache (main.py lines 19-21):
overwrites the "spotify_token" key with the given record. -/
def save_token_to_cache (s : SessionState) (token_info : TokenInfo) : SessionState :=
  { s with spotify_token := some token_info }

/-- clear_session_token (main.py lines 23-28): deletes the "spotify_token"
and "authenticated" keys when present.  Deleting an absent key and setting
the field to none coincide in this model, so the conditionals collapse.
With no token stored, the ghost verified field is false. -/
def clear_session_token (s : SessionState) : SessionState :=
  { s with spotify_token := none, authenticated := none, verified := false }

/-- Messages the login/logout handler surfaces through st.success and
st.error. -/
inductive UiMsg where
  | successMsg (text : String)
  | errorMsg (text : String)
deriving DecidableEq, Repr

/-- What can happen inside the guarded sp.current_user () call of the login
branch (main.py lines 85-92): the OAuth exchange saves a token and the
verifying call succeeds; the exchange saves a token but the verifying call
raises; or the exchange itself raises before any token is saved. -/
inductive LoginOutcome where
  | success (t : TokenInfo)
  | failAfterSave (t : TokenInfo) (msg : String)
  | failNoSave (msg : String)
deriving DecidableEq, Repr

/-- The login branch of the button handler (main.py lines 84-92): on
success the token has been saved through the cache handler, the verifying
profile call succeeded (ghost verified set), and st.session_state.authenticated
is set to True; on an exception after the save the token stays in the cache,
the authenticated key is left untouched, and an error message is emitted. -/
def login_branch (s : SessionState) (o : LoginOutcome) : SessionState × List UiMsg :=
  match o with
  | .success t =>
      ({ save_token_to_cache s t with verified := true, authenticated := some true },
       [UiMsg.successMsg "Successfully logged in!"])
  | .failAfterSave t m =>
      ({ save_token_to_cache s t with verified := false },
       [UiMsg.errorMsg ("Login failed: " ++ m)])
  | .failNoSave m =>
      (s, [UiMsg.errorMsg ("Login failed: " ++ m)])

/-- The session-level events of main.py: the top-of-script initialisation
(lines 60-61, sets authenticated to False when the key is absent), a click
on the button in its login form (only offered while authenticated is
False), and a click in its logout form (only offered while authenticated is
True, lines 80-83). -/
inductive StepEvent where
  | pageInit
  | loginClick (o : LoginOutcome)
  | logoutClick
deriving Repr

/-- One event of the session lifecycle; none when the event is not enabled
in the given state. -/
def sessionStep (s : SessionState) : StepEvent → Option SessionState
  | .pageInit =>
      some (if s.authenticated = none then { s with authenticated := some false } else s)
  | .loginClick o =>
      if s.authenticated = some false then some (login_branch s o).1 else none
  | .logoutClick =>
      if s.authenticated = some true then some (clear_session_token s) else none

/-- A fresh Streamlit session: both keys absent, nothing verified. -/
def initialSession : SessionState :=
  { spotify_token := none, authenticated := none, verified := false }

/-- The session states reachable from a fresh session through the events of
main.py. -/
inductive ReachableSession : SessionState → Prop where
  | init : ReachableSession initialSession
  | step (s s' : SessionState) (e : StepEvent) :
      ReachableSession s → sessionStep s e = some s' → ReachableSession s'

/-- C1: in every reachable session state, the authenticated flag is true
iff a Token Record is stored and a verifying profile fetch has succeeded
since it was stored; and there is no reachable state where exactly one of
the token and the flag has been cleared (the flag key is never absent while
a token is stored, and the flag is never true without a stored token). -/
theorem session_auth_invariant (s : SessionState) (h : ReachableSession s) :
    (s.authenticated = some true ↔ (s.spotify_token.isSome ∧ s.verified = true))
    ∧ (s.authenticated = none → s.spotify_token = none) := by
  induction h with
  | init => simp [initialSession]
  | step s s' e hs hstep ih =>
    cases e with
    | pageInit =>
      simp only [sessionStep, Option.some.injEq] at hstep
      by_cases hauth : s.authenticated = none
      · subst hstep
        simp only [hauth, if_pos rfl]
        constructor
        · simp [ih.2 hauth]
        · intro hcon
          simp at hcon
      · rw [if_neg hauth] at hstep
        subst hstep
        exact ih
    | loginClick o =>
      simp only [sessionStep] at hstep
      by_cases hauth : s.authenticated = some false
      · rw [if_pos hauth] at hstep
        simp only [Option.some.injEq] at hstep
        subst hstep
        cases o with
        | success t => simp [login_branch, save_token_to_cache]
        | failAfterSave t m => simp [login_branch, save_token_to_cache, hauth]
        | failNoSave m => simpa [login_branch] using ih
      · rw [if_neg hauth] at hstep
        exact absurd hstep (by simp)
    | logoutClick =>
      simp only [sessionStep] at hstep
      by_cases hauth : s.authenticated = some true
      · rw [if_pos hauth] at hstep
        simp only [Option.some.injEq] at hstep
        subst hstep
        simp [clear_session_token]
      · rw [if_neg hauth] at hstep
        exact absurd hstep (by simp)

/-- Witness for session_auth_invariant: the invariant evaluated at the
fresh session, which is reachable by construction. -/
theorem session_auth_invariant_witness :
    (initialSession.authenticated = some true
      ↔ (initialSession.spotify_token.isSome ∧ initialSession.verified = true))
    ∧ (initialSession.authenticated = none → initialSession.spotify_token = none) :=
  session_auth_invariant initialSession ReachableSession.init

/-- C2: saving T1 then T2 then reading returns exactly T2, and the double
save leaves the state exactly as a single save of T2 would (no field of T1
survives anywhere in the state). -/
theorem last_write_wins (s : SessionState) (t1 t2 : TokenInfo) :
    get_cached_token (save_token_to_cache (save_token_to_cache s t1) t2) = some t2
    ∧ save_token_to_cache (save_token_to_cache s t1) t2 = save_token_to_cache s t2 :=
  ⟨rfl, rfl⟩

/-- C3: after clear_session_token the cache reads absent, clearing twice
equals clearing once, and on a state with nothing cached (both keys absent,
nothing verified) clear_session_token is the identity. -/
theorem clear_erases_and_idempotent (s : SessionState) :
    get_cached_token (clear_session_token s) = none
    ∧ clear_session_token (clear_session_token s) = clear_session_token s
    ∧ (s.spotify_token = none → s.authenticated = none → s.verified = false →
        clear_session_token s = s) := by
  refine ⟨rfl, rfl, ?_⟩
  intro h1 h2 h3
  cases s
  simp_all [clear_session_token]

/-- Witness for clear_erases_and_idempotent: evaluated at the fresh
session, whose fields satisfy the no-op hypotheses. -/
theorem clear_erases_and_idempotent_witness :
    get_cached_token (clear_session_token initialSession) = none
    ∧ clear_session_token (clear_session_token initialSession) = clear_session_token initialSession
    ∧ (initialSession.spotify_token = none → initialSession.authenticated = none →
        initialSession.verified = false → clear_session_token initialSession = initialSession) :=
  clear_erases_and_idempotent initialSession

/-- C6: when the verifying call fails after the token was saved, the stored
record stays in the cache unmodified, the authenticated key is left exactly
as it was (in particular it is not set to true), and the error message is
surfaced. -/
theorem failed_login_keeps_token (s : SessionState) (t : TokenInfo) (m : String) :
    (login_branch s (LoginOutcome.failAfterSave t m)).1.spotify_token = some t
    ∧ (login_branch s (LoginOutcome.failAfterSave t m)).1.authenticated = s.authenticated
    ∧ UiMsg.errorMsg ("Login failed: " ++ m) ∈ (login_branch s (LoginOutcome.failAfterSave t m)).2 := by
  refine ⟨rfl, rfl, ?_⟩
  simp [login_branch]

/-- The one failure condition of the session store named by the error
taxonomy. -/
inductive StorageError where
  | StorageUnavailable
deriving DecidableEq, Repr

/-- Modelled from the spec: the availability of the underlying Streamlit
session store, which is external to the repository.  The handler body in
main.py lines 19-21 is a single in-memory assignment with no other failure
channel, so saving either succeeds with the assignment performed or fails
with StorageUnavailable when the store cannot be written. -/
def save_token_to_cache_checked (storeAvailable : Bool) (s : SessionState)
    (t : TokenInfo) : Except StorageError SessionState :=
  if storeAvailable then Except.ok (save_token_to_cache s t)
  else Except.error StorageError.StorageUnavailable

/-- C9: with the store available the save always succeeds and performs
exactly the in-memory overwrite; with the store unavailable it fails with
StorageUnavailable; and those are the only two results. -/
theorem save_token_single_failure_mode (avail : Bool) (s : SessionState) (t : TokenInfo) :
    (avail = true →
      save_token_to_cache_checked avail s t = Except.ok (save_token_to_cache s t))
    ∧ (avail = false →
      save_token_to_cache_checked avail s t = Except.error StorageError.StorageUnavailable)
    ∧ (save_token_to_cache_checked avail s t = Except.ok (save_token_to_cache s t)
      ∨ save_token_to_cache_checked avail s t = Except.error StorageError.StorageUnavailable) := by
  cases avail <;> simp [save_token_to_cache_checked]

/-- Witness for save_token_single_failure_mode at concrete inputs, both
implications dischargeable on the respective branch. -/
theorem save_token_single_failure_mode_witness :
    (true = true →
      save_token_to_cache_checked true initialSession ⟨"a", "r", 0, []⟩
        = Except.ok (save_token_to_cache initialSession ⟨"a", "r", 0, []⟩))
    ∧ (true = false →
      save_token_to_cache_checked true initialSession ⟨"a", "r", 0, []⟩
        = Except.error StorageError.StorageUnavailable)
    ∧ (save_token_to_cache_checked true initialSession ⟨"a", "r", 0, []⟩
        = Except.ok (save_token_to_cache initialSession ⟨"a", "r", 0, []⟩)
      ∨ save_token_to_cache_checked true initialSession ⟨"a", "r", 0, []⟩
        = Except.error StorageError.StorageUnavailable) :=
  save_token_single_failure_mode true initialSession ⟨"a", "r", 0, []⟩

/-- A track object as the dashboard reads it: its name, the url list of its
album images, the names of its artists, and its duration in milliseconds. -/
structure Track where
  name : String
  album_images : List String
  artists : List String
  duration_ms : Nat
deriving DecidableEq, Repr

/-- One element of the recently-played response: a track together with the
timestamp at which it was played, counted in whole minutes since the epoch
(pandas to_datetime values, at the granularity these properties need). -/
structure PlayedItem where
  track : Track
  played_at : Nat
deriving DecidableEq, Repr

/-- The resampling periods offered by the selectbox (main.py line 178),
as bucket lengths in minutes. -/
def periodMinutes : String → Option Nat
  | "1H" => some 60
  | "2H" => some 120
  | "4H" => some 240
  | "6H" => some 360
  | _ => none

/-- Adds a duration to the running total of its time bucket, starting the
bucket at the end when it is new: the per-group accumulation behind
resample (period).sum () on main.py line 179. -/
def addToBucket (b : Nat) (d : ℚ) : List (Nat × ℚ) → List (Nat × ℚ)
  | [] => [(b, d)]
  | (b0, x) :: rest => if b0 = b then (b0, x + d) :: rest else (b0, x) :: addToBucket b d rest

/-- The recent-activity aggregation of main.py lines 172-179: each item
contributes duration_ms / 60000 minutes (exact division in ℚ), grouped into
time buckets of p minutes of its played_at index. -/
def resampleSumMin (p : Nat) (items : List PlayedItem) : List (Nat × ℚ) :=
  items.foldl
    (fun acc i => addToBucket (i.played_at / p) ((i.track.duration_ms : ℚ) / 60000) acc) []

/-- Reads one bucket of the resampled series; buckets never touched hold
zero minutes. -/
def bucketLookup (b : Nat) : List (Nat × ℚ) → ℚ
  | [] => 0
  | (b0, x) :: rest => if b0 = b then x else bucketLookup b rest

/-- The displayed listening time of one bucket of the resampled series. -/
def bucketTotal (p : Nat) (items : List PlayedItem) (b : Nat) : ℚ :=
  bucketLookup b (resampleSumMin p items)

theorem bucketLookup_addToBucket_self (b : Nat) (d : ℚ) (acc : List (Nat × ℚ)) :
    bucketLookup b (addToBucket b d acc) = bucketLookup b acc + d := by
  induction acc with
  | nil => simp [addToBucket, bucketLookup]
  | cons hd tl ih =>
    obtain ⟨b0, x⟩ := hd
    by_cases hb : b0 = b
    · simp [addToBucket, bucketLookup, hb]
    · simp [addToBucket, bucketLookup, hb, ih]

theorem bucketLookup_addToBucket_ne (b b' : Nat) (hne : b ≠ b') (d : ℚ)
    (acc : List (Nat × ℚ)) :
    bucketLookup b' (addToBucket b d acc) = bucketLookup b' acc := by
  induction acc with
  | nil => simp [addToBucket, bucketLookup, hne]
  | cons hd tl ih =>
    obtain ⟨b0, x⟩ := hd
    by_cases hb : b0 = b
    · subst hb
      simp [addToBucket, bucketLookup, hne]
    · simp [addToBucket, bucketLookup, hb, ih]

theorem resampleSumMin_fold_lookup (p : Nat) (b : Nat) :
    ∀ (items : List PlayedItem) (acc : List (Nat × ℚ)),
      bucketLookup b
          (items.foldl
            (fun acc i =>
              addToBucket (i.played_at / p) ((i.track.duration_ms : ℚ) / 60000) acc) acc)
        = bucketLookup b acc
          + ((items.filter fun i => i.played_at / p = b).map
              fun i => (i.track.duration_ms : ℚ) / 60000).sum := by
  intro items
  induction items with
  | nil => intro acc; simp
  | cons i rest ih =>
    intro acc
    simp only [List.foldl_cons, ih]
    by_cases hb : i.played_at / p = b
    · rw [List.filter_cons_of_pos (by simpa using hb), List.map_cons, List.sum_cons,
        hb, bucketLookup_addToBucket_self]
      ring
    · rw [List.filter_cons_of_neg (by simpa using hb),
        bucketLookup_addToBucket_ne (i.played_at / p) b hb]

/-- C4: every bucket of the displayed recent-activity series equals the sum,
over the items whose played_at timestamp falls in that bucket, of their
duration_ms converted to minutes by division by 60000; the selectbox option
"2H" denotes 120-minute buckets; and in particular two tracks played at
minutes 10 and 70 with durations 180000 ms and 240000 ms fall in the same
2-hour bucket and total exactly 7 minutes there. -/
theorem recent_activity_bucket_sum :
    (∀ (p : Nat) (items : List PlayedItem) (b : Nat),
      bucketTotal p items b
        = ((items.filter fun i => i.played_at / p = b).map
            fun i => (i.track.duration_ms : ℚ) / 60000).sum)
    ∧ periodMinutes "2H" = some 120
    ∧ bucketTotal 120 [⟨⟨"T1", [], [], 180000⟩, 10⟩, ⟨⟨"T2", [], [], 240000⟩, 70⟩] 0 = 7 := by
  refine ⟨?_, rfl, ?_⟩
  · intro p items b
    simpa [bucketLookup] using resampleSumMin_fold_lookup p b items []
  · show bucketLookup 0 (resampleSumMin 120 _) = 7
    norm_num [resampleSumMin, addToBucket, bucketLookup]

/-- The distinct keys of a list in order of first occurrence, as the
factorization underlying pandas value_counts produces them. -/
def keysInOrder (l : List String) : List String :=
  l.foldl (fun acc x => if x ∈ acc then acc else acc ++ [x]) []

/-- Each distinct key in first-occurrence order, paired with the number of
times it occurs in the list. -/
def countsInOrder (l : List String) : List (String × Nat) :=
  (keysInOrder l).map fun k => (k, l.count k)

/-- pd.Series (tracks).value_counts () of main.py line 189: the per-key
counts sorted by count descending with a stable sort, so keys of equal
count keep their first-occurrence order. -/
def value_counts (l : List String) : List (String × Nat) :=
  List.insertionSort (fun a b => b.2 ≤ a.2) (countsInOrder l)

/-- value_counts followed by head (k): the top k most frequent names. -/
def track_counts (l : List String) (k : Nat) : List (String × Nat) :=
  (value_counts l).take k

/-- C5: the worked example from the spec evaluates exactly as claimed; the
computed frequency list is sorted by descending count; and any pair of
entries ordered compatibly with descending count in the first-occurrence
count list (in particular any tied pair) keeps its relative order in the
output, which is the stated tie-breaking rule. -/
theorem on_repeat_top_counts :
    track_counts ["A", "B", "A", "C", "A", "B"] 2 = [("A", 3), ("B", 2)]
    ∧ (∀ l : List String,
        (value_counts l).Sorted fun a b => b.2 ≤ a.2)
    ∧ (∀ (l : List String) (a b : String × Nat), b.2 ≤ a.2 →
        List.Sublist [a, b] (countsInOrder l) →
        List.Sublist [a, b] (value_counts l)) := by
  refine ⟨by decide, ?_, ?_⟩
  · intro l
    haveI : IsTotal (String × Nat) (fun a b => b.2 ≤ a.2) :=
      ⟨fun a b => Nat.le_total b.2 a.2⟩
    haveI : IsTrans (String × Nat) (fun a b => b.2 ≤ a.2) :=
      ⟨fun _ _ _ hab hbc => le_trans hbc hab⟩
    exact List.sorted_insertionSort _ _
  · intro l a b hab hsub
    exact List.sublist_insertionSort (List.pairwise_pair.mpr hab) hsub

/-- Witness for on_repeat_top_counts: two names tied at two occurrences
each keep their first-occurrence order in the sorted counts. -/
theorem on_repeat_top_counts_witness :
    List.Sublist [("X", 2), ("Y", 2)] (value_counts ["X", "X", "Y", "Y"]) :=
  on_repeat_top_counts.2.2 ["X", "X", "Y", "Y"] ("X", 2) ("Y", 2)
    (by decide) (by decide)

/-- The user profile as the dashboard reads it. -/
structure UserProfile where
  display_name : String
  images : List String
deriving DecidableEq, Repr

/-- The current-playback response: the active device name (none when the
device entry is missing), whether playback is running, and the playing
track. -/
structure PlaybackState where
  device : Option String
  is_playing : Bool
  item : Track
deriving DecidableEq, Repr

/-- An artist object of the top-artists response. -/
structure ArtistInfo where
  name : String
  genres : List String
  images : List String
  popularity : Nat
deriving DecidableEq, Repr

/-- The responses the remote API hands one page render: the two guarded
calls (profile and queue) may fail with a SpotifyException message; the
unguarded calls are given by their data.  now_playing is none when no
playback state exists. -/
structure RenderInputs where
  profile : Except String UserProfile
  items : List PlayedItem
  now_playing : Option PlaybackState
  queue : Except String (List Track)
  top_artists : List ArtistInfo
  top_tracks : List Track
deriving Repr

/-- An unhandled Python exception aborting the render. -/
inductive Fault where
  | indexError
deriving DecidableEq, Repr

/-- The remote API calls the render issues, in source order. -/
inductive ApiCall where
  | profileFetch
  | recentlyPlayed
  | currentPlayback
  | queueFetch
  | topArtistsFetch
  | topTracksFetch
deriving DecidableEq, Repr

/-- The page sections the render emits, in source order. -/
inductive PageSection where
  | titleSection
  | dashboardHeader
  | profileError
  | userProfileSec
  | currentDevice
  | nowPlaying
  | nextInQueue
  | queueFallback
  | recentActivity
  | onRepeat
  | topGenres
  | currentFavorites
  | recentlyPlayedList
  | topSongs
  | topArtistsList
  | popularityChart
deriving DecidableEq, Repr

/-- What a completed render produced: the API calls issued and the sections
shown. -/
structure RenderOut where
  calls : List ApiCall
  sections : List PageSection
deriving DecidableEq, Repr

/-- Indexing a Python list at position 0: the first element, or an
IndexError on an empty list. -/
def idx0 {α : Type} : List α → Except Fault α
  | [] => Except.error Fault.indexError
  | a :: _ => Except.ok a

/-- The Next in Queue panel (main.py lines 149-164): the queue fetch is the
one call wrapped in try/except, so a SpotifyException becomes the fallback
text; a nonempty queue shows its first track (indexing into that track's
album images unguarded). -/
def queuePanel (queue : Except String (List Track)) : Except Fault PageSection :=
  match queue with
  | .error _ => Except.ok PageSection.queueFallback
  | .ok q =>
      match q with
      | [] => Except.ok PageSection.nextInQueue
      | next :: _ => do
          let _ ← idx0 next.album_images
          pure PageSection.nextInQueue

/-- The Now Playing panel (main.py lines 134-147): when something is
playing it shows the first album image and first artist of the playing
track, both indexed unguarded. -/
def nowPlayingPanel (np : Option PlaybackState) : Except Fault Unit :=
  match np with
  | some pb =>
      if pb.is_playing then do
        let _ ← idx0 pb.item.album_images
        let _ ← idx0 pb.item.artists
        pure ()
      else pure ()
  | none => pure ()

/-- The calls a full render issues, in the order of main.py lines 95, 100,
120, 152, 192 and 227. -/
def fullRenderCalls : List ApiCall :=
  [ApiCall.profileFetch, ApiCall.recentlyPlayed, ApiCall.currentPlayback,
   ApiCall.queueFetch, ApiCall.topArtistsFetch, ApiCall.topTracksFetch]

/-- The sections of a render that runs to the bottom of the script, with
the queue panel outcome spliced in at its position. -/
def fullRenderSections (queueSec : PageSection) : List PageSection :=
  [PageSection.titleSection, PageSection.dashboardHeader, PageSection.userProfileSec,
   PageSection.currentDevice, PageSection.nowPlaying, queueSec,
   PageSection.recentActivity, PageSection.onRepeat, PageSection.topGenres,
   PageSection.currentFavorites, PageSection.recentlyPlayedList,
   PageSection.topSongs, PageSection.topArtistsList, PageSection.popularityChart]

/-- A widget loop over a response list, running the per-row accesses of the
loop body (the unguarded index expressions) for each row in order. -/
def renderRows {α : Type} (row : α → Except Fault Unit) : List α → Except Fault Unit
  | [] => Except.ok ()
  | a :: rest => do
      let _ ← row a
      renderRows row rest

/-- The per-item access of the Current Favorites section (main.py line
204): the first artist of every recently played item. -/
def favoritesRow (i : PlayedItem) : Except Fault Unit := do
  let _ ← idx0 i.track.artists
  pure ()

/-- The per-item accesses of the Recently Played list (main.py lines
217-224): first album image and first artist of each of the first five
items. -/
def recentlyPlayedRow (i : PlayedItem) : Except Fault Unit := do
  let _ ← idx0 i.track.album_images
  let _ ← idx0 i.track.artists
  pure ()

/-- The per-track accesses of the Top Songs list (main.py lines 228-234):
first album image and first artist of every top track. -/
def topSongsRow (t : Track) : Except Fault Unit := do
  let _ ← idx0 t.album_images
  let _ ← idx0 t.artists
  pure ()

/-- The per-artist access of the Top Artists list (main.py lines 237-242):
first image of each of the first five top artists. -/
def topArtistsRow (a : ArtistInfo) : Except Fault Unit := do
  let _ ← idx0 a.images
  pure ()

/-- The page render of main.py lines 75-251 after the button handler: a
failing profile fetch is caught, shows a page-level error and stops the
script (st.stop), so only the title, the Dashboard header and the error
are shown and only the one call was issued; otherwise the script runs to
the bottom, faulting wherever the Python code indexes an empty list
(items[0] on line 101, the playing track's images and artists, the queued
track's images, artists[0] of every item on line 204, images and artists
of the first five items on lines 221-224, of every top track on lines
231-234, and images of the first five top artists on line 240). -/
def renderPage (inp : RenderInputs) : Except Fault RenderOut :=
  match inp.profile with
  | .error _ =>
      Except.ok
        { calls := [ApiCall.profileFetch],
          sections := [PageSection.titleSection, PageSection.dashboardHeader,
                       PageSection.profileError] }
  | .ok _user => do
      let _ ← idx0 inp.items
      let _ ← nowPlayingPanel inp.now_playing
      let queueSec ← queuePanel inp.queue
      let _ ← renderRows favoritesRow inp.items
      let _ ← renderRows recentlyPlayedRow (inp.items.take 5)
      let _ ← renderRows topSongsRow inp.top_tracks
      let _ ← renderRows topArtistsRow (inp.top_artists.take 5)
      Except.ok { calls := fullRenderCalls, sections := fullRenderSections queueSec }

/-- C8: whenever the profile-verification call fails, the render shows the
page-level error right after the Dashboard header and stops: the result is
exactly the three leading sections with nothing after them, and the call
trace is exactly the single profile fetch, so the call is not retried. -/
theorem profile_failure_halts (inp : RenderInputs) (m : String)
    (hp : inp.profile = Except.error m) :
    renderPage inp = Except.ok
      { calls := [ApiCall.profileFetch],
        sections := [PageSection.titleSection, PageSection.dashboardHeader,
                     PageSection.profileError] } := by
  simp [renderPage, hp]

/-- Inputs of a render whose profile fetch is denied. -/
def deniedProfileInputs : RenderInputs :=
  { profile := Except.error "No access to beta", items := [], now_playing := none,
    queue := Except.ok [], top_artists := [], top_tracks := [] }

/-- Witness for profile_failure_halts at a concrete denied render. -/
theorem profile_failure_halts_witness :
    renderPage deniedProfileInputs = Except.ok
      { calls := [ApiCall.profileFetch],
        sections := [PageSection.titleSection, PageSection.dashboardHeader,
                     PageSection.profileError] } :=
  profile_failure_halts deniedProfileInputs "No access to beta" rfl

/-- C10: once the profile fetch succeeds, the render unconditionally indexes
the first recently-played item, so with an empty recently-played history it
aborts with an IndexError instead of showing a fallback, and conversely a
completed render implies the history was nonempty. -/
theorem empty_recently_played_faults (inp : RenderInputs) (u : UserProfile)
    (hp : inp.profile = Except.ok u) :
    (inp.items = [] → renderPage inp = Except.error Fault.indexError)
    ∧ (∀ out, renderPage inp = Except.ok out → inp.items ≠ []) := by
  have hfault : inp.items = [] → renderPage inp = Except.error Fault.indexError := by
    intro hi
    simp [renderPage, hp, hi, idx0, Bind.bind, Except.bind]
  refine ⟨hfault, ?_⟩
  intro out hout hi
  rw [hfault hi] at hout
  exact absurd hout (by simp)

/-- Inputs of a render for a user with an empty recently-played history. -/
def emptyHistoryInputs : RenderInputs :=
  { profile := Except.ok { display_name := "User", images := [] },
    items := [], now_playing := none, queue := Except.ok [],
    top_artists := [], top_tracks := [] }

/-- Witness for empty_recently_played_faults at the concrete empty-history
render. -/
theorem empty_recently_played_faults_witness :
    (emptyHistoryInputs.items = [] →
      renderPage emptyHistoryInputs = Except.error Fault.indexError)
    ∧ (∀ out, renderPage emptyHistoryInputs = Except.ok out →
        emptyHistoryInputs.items ≠ []) :=
  empty_recently_played_faults emptyHistoryInputs
    { display_name := "User", images := [] } rfl

/-- C7: in a render that reaches the queue fetch (the profile call
succeeded) and whose remaining data renders cleanly (witnessed by the same
render succeeding with an empty queue), a failing queue fetch still yields
a completed page: the queue panel position shows the fallback and every
section after the queue panel is rendered. -/
theorem queue_failure_recovered (inp : RenderInputs) (u : UserProfile) (m : String)
    (out0 : RenderOut)
    (hp : inp.profile = Except.ok u)
    (h : renderPage { inp with queue := Except.ok [] } = Except.ok out0) :
    renderPage { inp with queue := Except.error m }
      = Except.ok { calls := fullRenderCalls,
                    sections := fullRenderSections PageSection.queueFallback }
    ∧ PageSection.queueFallback ∈ fullRenderSections PageSection.queueFallback
    ∧ ∀ sec ∈ [PageSection.recentActivity, PageSection.onRepeat, PageSection.topGenres,
          PageSection.currentFavorites, PageSection.recentlyPlayedList,
          PageSection.topSongs, PageSection.topArtistsList, PageSection.popularityChart],
        sec ∈ fullRenderSections PageSection.queueFallback := by
  refine ⟨?_, by decide, by decide⟩
  simp only [renderPage, hp, queuePanel, Bind.bind, Except.bind] at h ⊢
  cases h1 : idx0 inp.items with
  | error f => simp [h1] at h
  | ok a1 =>
  simp only [h1] at h ⊢
  cases h2 : nowPlayingPanel inp.now_playing with
  | error f => simp [h2] at h
  | ok a2 =>
  simp only [h2] at h ⊢
  cases h3 : renderRows favoritesRow inp.items with
  | error f => simp [h3] at h
  | ok a3 =>
  simp only [h3] at h ⊢
  cases h4 : renderRows recentlyPlayedRow (inp.items.take 5) with
  | error f => simp [h4] at h
  | ok a4 =>
  simp only [h4] at h ⊢
  cases h5 : renderRows topSongsRow inp.top_tracks with
  | error f => simp [h5] at h
  | ok a5 =>
  simp only [h5] at h ⊢
  cases h6 : renderRows topArtistsRow (inp.top_artists.take 5) with
  | error f => simp [h6] at h
  | ok a6 =>
  simp only [h6] at h ⊢

/-- A fully well-formed render input set with a single played track. -/
def okTrack : Track :=
  { name := "Song", album_images := ["img"], artists := ["Artist"], duration_ms := 180000 }

/-- Concrete render inputs whose every unguarded index succeeds. -/
def okInputs : RenderInputs :=
  { profile := Except.ok { display_name := "User", images := ["pic"] },
    items := [{ track := okTrack, played_at := 10 }],
    now_playing := none,
    queue := Except.ok [],
    top_artists := [{ name := "Artist", genres := ["pop"], images := ["img"], popularity := 50 }],
    top_tracks := [okTrack] }

/-- Witness for queue_failure_recovered: the concrete well-formed render
with its queue fetch failing still renders the full page with the
fallback. -/
theorem queue_failure_recovered_witness :
    renderPage { okInputs with queue := Except.error "boom" }
      = Except.ok { calls := fullRenderCalls,
                    sections := fullRenderSections PageSection.queueFallback }
    ∧ PageSection.queueFallback ∈ fullRenderSections PageSection.queueFallback
    ∧ ∀ sec ∈ [PageSection.recentActivity, PageSection.onRepeat, PageSection.topGenres,
          PageSection.currentFavorites, PageSection.recentlyPlayedList,
          PageSection.topSongs, PageSection.topArtistsList, PageSection.popularityChart],
        sec ∈ fullRenderSections PageSection.queueFallback :=
  queue_failure_recovered okInputs { display_name := "User", images := ["pic"] } "boom"
    { calls := fullRenderCalls, sections := fullRenderSections PageSection.nextInQueue }
    rfl rfl
